import Mathlib

/-!
# Verification of the Amber scope/symbol engine and the `Div` expression node

Shallow embedding of `src/src/utils/memory.rs` (the `Memory` scope stack,
variable and function declaration/lookup) and
`src/src/modules/expression/binop/div.rs` (the division expression node).
Rust `HashMap<String, V>` is embedded as an association list used only
through `alookup`/`ainsert`; mutation is embedded as explicit state passing;
a Rust panic (`.unwrap()` on an empty scope stack) is embedded as `none`.
Components of the repository that are referenced from `memory.rs` but whose
source is not available (`Type`, `FunctionMap`, `Exports`, `ParserMetadata`,
the declaration-syntax value and the parser combinators used by `Div::parse`)
are modelled from the specification and marked as such.
-/

set_option autoImplicit false

namespace Amber

/-- Modelled from the spec: the language's type enum (`crate::modules::types::Type`
is not under src/) — "a closed, finite set of concrete types plus one generic
placeholder". Only `Num`, `Text` and `Generic` are used by the claims. -/
inductive Ty where
  | Num
  | Text
  | Bool
  | Null
  | Generic
deriving DecidableEq, Repr

/-- Lookup in an association list embedding of `HashMap<String, V>`:
returns the value bound to `name`, if any. -/
def alookup {V : Type} : List (String × V) → String → Option V
  | [], _ => none
  | (k, v) :: rest, name => if k = name then some v else alookup rest name

/-- Insert embedding of `HashMap::insert` (without its return value):
binds `name` to `v`, replacing any previous binding. -/
def ainsert {V : Type} (l : List (String × V)) (name : String) (v : V) :
    List (String × V) :=
  (name, v) :: l.filter (fun p => p.1 != name)

/-- Modelled from the spec: a token of the external token stream, carrying its
word and source position (the lexer is an external collaborator). -/
structure Token where
  word : String
  pos : Nat × Nat
deriving DecidableEq, Repr

/-- Modelled from the spec: the snapshot of parser state stored inside a
`FunctionDecl` (`declaration_context`). No claim inspects it, so it carries
no data here. -/
structure ParserMetadata where
deriving DecidableEq, Repr

/-- Struct `FunctionDecl` from `memory.rs`. -/
structure FunctionDecl where
  name : String
  args : List (String × Ty)
  returns : Ty
  body : List Token
  meta : ParserMetadata
  typed : Bool
  is_public : Bool
  id : Nat
deriving DecidableEq, Repr

/-- Struct `VariableDecl` from `memory.rs`. -/
structure VariableDecl where
  name : String
  kind : Ty
  global_id : Option Nat
deriving DecidableEq, Repr

/-- Struct `ScopeUnit` from `memory.rs`: one lexical frame. -/
structure ScopeUnit where
  vars : List (String × VariableDecl)
  funs : List (String × FunctionDecl)
deriving DecidableEq, Repr

/-- Constructor `ScopeUnit::new`. -/
def ScopeUnit.new : ScopeUnit :=
  { vars := [], funs := [] }

/-- Modelled from the spec: the Function Instance Cache (`FunctionMap`, whose
source file `function_map.rs` is not under src/). The claims use only its
`add_declaration` id-allocation path, so the per-id instance sequences are
represented by the count of declarations made so far; `add_declaration`
"allocates a fresh function id" — ids are unique and assigned at declaration. -/
structure FunctionMap where
  decl_count : Nat
deriving DecidableEq, Repr

/-- Modelled from the spec: `FunctionMap::new` starts with no declarations. -/
def FunctionMap.new : FunctionMap :=
  { decl_count := 0 }

/-- Modelled from the spec: `FunctionMap::add_declaration` allocates and
returns the next fresh function id. -/
def FunctionMap.add_declaration (fm : FunctionMap) : Nat × FunctionMap :=
  (fm.decl_count, { decl_count := fm.decl_count + 1 })

/-- Modelled from the spec: the Exports registry (`exports.rs` is not under
src/) — a flat, append-only collection of public function declarations. -/
structure Exports where
  funs : List FunctionDecl
deriving DecidableEq, Repr

/-- Modelled from the spec: `Exports::new` starts empty. -/
def Exports.new : Exports :=
  { funs := [] }

/-- Modelled from the spec: `Exports::add_function` "appends any function with
`is_public == true`; non-public functions are never added". -/
def Exports.add_function (e : Exports) (decl : FunctionDecl) : Exports :=
  if decl.is_public then { funs := e.funs ++ [decl] } else e

/-- Struct `Memory` from `memory.rs`. -/
structure Memory where
  scopes : List ScopeUnit
  function_map : FunctionMap
  variable_id : Nat
  exports : Exports
deriving DecidableEq, Repr

/-- Constructor `Memory::new`. -/
def Memory.new : Memory :=
  { scopes := [], function_map := FunctionMap.new, variable_id := 0,
    exports := Exports.new }

/-- Method `Memory::get_depth`. -/
def Memory.get_depth (m : Memory) : Nat :=
  m.scopes.length

/-- Method `Memory::push_scope`. -/
def Memory.push_scope (m : Memory) : Memory :=
  { m with scopes := m.scopes ++ [ScopeUnit.new] }

/-- Method `Memory::pop_scope`: `Vec::pop` returns the last (innermost) frame, or
`none` on an empty stack. -/
def Memory.pop_scope (m : Memory) : Option (ScopeUnit × Memory) :=
  match m.scopes.getLast? with
  | none => none
  | some s => some (s, { m with scopes := m.scopes.dropLast })

/-- Method `Memory::add_variable`. The outer `Option` embeds the panic of
`self.scopes.last_mut().unwrap()` on an empty scope stack; the inner
`Option Nat` is the returned `global_id`. -/
def Memory.add_variable (m : Memory) (name : String) (kind : Ty)
    (global : Bool) : Option (Option Nat × Memory) :=
  match m.scopes.getLast? with
  | none => none
  | some scope =>
    let global_id : Option Nat := if global then some m.variable_id else none
    let variable_id := if global then m.variable_id + 1 else m.variable_id
    let scope' :=
      { scope with
        vars := ainsert scope.vars name
          { name := name, kind := kind, global_id := global_id } }
    some (global_id,
      { m with scopes := m.scopes.dropLast ++ [scope'],
               variable_id := variable_id })

/-- The innermost-to-outermost scan of `Memory::get_variable`, acting on the
already-reversed scope stack. -/
def findVarIn : List ScopeUnit → String → Option VariableDecl
  | [], _ => none
  | s :: rest, name =>
    match alookup s.vars name with
    | some v => some v
    | none => findVarIn rest name

/-- Method `Memory::get_variable`: scans frames innermost-to-outermost. -/
def Memory.get_variable (m : Memory) (name : String) : Option VariableDecl :=
  findVarIn m.scopes.reverse name

/-- The innermost-to-outermost scan of `Memory::get_function`, acting on the
already-reversed scope stack. -/
def findFunIn : List ScopeUnit → String → Option FunctionDecl
  | [], _ => none
  | s :: rest, name =>
    match alookup s.funs name with
    | some f => some f
    | none => findFunIn rest name

/-- Method `Memory::get_function`. -/
def Memory.get_function (m : Memory) (name : String) : Option FunctionDecl :=
  findFunIn m.scopes.reverse name

/-- Method `Memory::add_existing_function_declaration`. The outer `Option` embeds the
panic on an empty scope stack; the `Bool` is `res.is_none()` — whether the
name was previously absent from the innermost frame. -/
def Memory.add_existing_function_declaration (m : Memory)
    (decl : FunctionDecl) : Option (Bool × Memory) :=
  match m.scopes.getLast? with
  | none => none
  | some scope =>
    let exports := m.exports.add_function decl
    let res := alookup scope.funs decl.name
    let scope' := { scope with funs := ainsert scope.funs decl.name decl }
    some (res.isNone,
      { m with scopes := m.scopes.dropLast ++ [scope'], exports := exports })

/-- Modelled from the spec: the declaration-syntax value produced by the
function-declaration grammar (`FunctionDeclSyntax` is not under src/):
`{ name, parameters, returns, body: raw tokens, is_public }`. -/
structure FunctionDeclSyntax where
  name : String
  args : List (String × Ty)
  returns : Ty
  body : List Token
  is_public : Bool
deriving DecidableEq, Repr

/-- Method `Memory::add_function_declaration`. The outer `Option` embeds the panic on
an empty scope stack; the inner `Option Nat` is the returned fresh id
(`none` on a redeclaration conflict in the innermost frame). -/
def Memory.add_function_declaration (m : Memory) (meta : ParserMetadata)
    (decl : FunctionDeclSyntax) : Option (Option Nat × Memory) :=
  let typed := !(decl.args.any (fun p => p.2 == Ty.Generic))
  match m.scopes.getLast? with
  | none => none
  | some scope =>
    let (id, function_map) := m.function_map.add_declaration
    let function_declaration : FunctionDecl :=
      { name := decl.name, args := decl.args, returns := decl.returns,
        is_public := decl.is_public, body := decl.body, meta := meta,
        typed := typed, id := id }
    let success := alookup scope.funs decl.name
    let scope' :=
      { scope with
        funs := ainsert scope.funs decl.name function_declaration }
    let exports := m.exports.add_function function_declaration
    let m' :=
      { m with scopes := m.scopes.dropLast ++ [scope'],
               function_map := function_map, exports := exports }
    some (if success.isNone then some id else none, m')


/-! ## Helper lemmas -/

theorem findVarIn_eq_none (l : List ScopeUnit) (name : String)
    (h : ∀ s ∈ l, alookup s.vars name = none) : findVarIn l name = none := by
  induction l with
  | nil => rfl
  | cons s rest ih =>
    simp only [findVarIn, h s (List.mem_cons_self s rest)]
    exact ih (fun t ht => h t (List.mem_cons_of_mem s ht))

/-- A concrete one-scope memory holding the variable `x : Num` in its only
(outermost) frame; used to instantiate theorems with hypotheses. -/
def memX : Memory :=
  { scopes := [{ vars := [("x", { name := "x", kind := Ty.Num, global_id := none })],
                 funs := [] }],
    function_map := { decl_count := 0 }, variable_id := 0,
    exports := { funs := [] } }

/-! ## Claims -/

/-- C1: lexical shadowing. If `x` resolves to a `Num` declaration `d`, then
after pushing a scope and declaring `x : Text` (non-global) there, `get_variable`
returns the `Text` declaration; popping the pushed scope restores the memory
exactly, so `get_variable` again returns `d`; and any name bound in no open
scope resolves to `none`. -/
theorem get_variable_shadowing (m : Memory) (x y : String) (d : VariableDecl)
    (hd : m.get_variable x = some d) (hnum : d.kind = Ty.Num)
    (hy : ∀ s ∈ m.scopes, alookup s.vars y = none) :
    ∃ m₂ : Memory,
      (m.push_scope).add_variable x Ty.Text false = some (none, m₂) ∧
      m₂.get_variable x =
        some { name := x, kind := Ty.Text, global_id := none } ∧
      m₂.pop_scope =
        some ({ vars := [(x, { name := x, kind := Ty.Text, global_id := none })],
                funs := [] }, m) ∧
      m.get_variable x = some d ∧
      m.get_variable y = none := by
  refine ⟨{ m with scopes := m.scopes ++
      [{ vars := [(x, { name := x, kind := Ty.Text, global_id := none })],
         funs := [] }] }, ?_, ?_, ?_, hd, ?_⟩
  · simp [Memory.push_scope, Memory.add_variable, List.getLast?_concat,
      List.dropLast_concat, ainsert, ScopeUnit.new]
  · simp [Memory.get_variable, findVarIn, alookup]
  · simp [Memory.pop_scope, List.getLast?_concat, List.dropLast_concat]
  · exact findVarIn_eq_none _ _ (fun s hs => hy s (List.mem_reverse.mp hs))

/-- C1 witness: the shadowing scenario instantiated at a concrete memory. -/
theorem get_variable_shadowing_witness :
    ∃ m₂ : Memory,
      (memX.push_scope).add_variable "x" Ty.Text false = some (none, m₂) ∧
      m₂.get_variable "x" =
        some { name := "x", kind := Ty.Text, global_id := none } ∧
      m₂.pop_scope =
        some ({ vars := [("x", { name := "x", kind := Ty.Text, global_id := none })],
                funs := [] }, memX) ∧
      memX.get_variable "x" =
        some { name := "x", kind := Ty.Num, global_id := none } ∧
      memX.get_variable "y" = none :=
  get_variable_shadowing memX "x" "y"
    { name := "x", kind := Ty.Num, global_id := none }
    (by decide) rfl (by decide)

/-- C2 counterexample: on a truly fresh Memory the scope stack is empty, so
the very first `add_variable` call hits `scopes.last_mut().unwrap()` and
panics (embedded as `none`) instead of returning global id 0. -/
theorem add_variable_on_fresh_memory_panics :
    Memory.new.add_variable "a" Ty.Num true = none := rfl

/-- C2 (amended): on a fresh Memory with one scope pushed, three global
declarations return global ids 0, 1, 2 in declaration order; and on any
memory with an open scope, a call with `is_global = false` returns nothing
and leaves the variable-id counter unchanged. -/
theorem global_id_allocation :
    (∃ m₁ m₂ m₃ : Memory,
      (Memory.new.push_scope).add_variable "a" Ty.Num true
        = some (some 0, m₁) ∧
      m₁.add_variable "b" Ty.Num true = some (some 1, m₂) ∧
      m₂.add_variable "c" Ty.Num true = some (some 2, m₃)) ∧
    (∀ (m : Memory) (name : String) (kind : Ty), m.scopes ≠ [] →
      ∃ m' : Memory, m.add_variable name kind false = some (none, m') ∧
        m'.variable_id = m.variable_id) := by
  constructor
  · exact ⟨_, _, _, rfl, rfl, rfl⟩
  · intro m name kind h
    rcases List.eq_nil_or_concat m.scopes with h0 | ⟨L, s, hL⟩
    · exact absurd h0 h
    · refine ⟨Memory.mk
        (m.scopes.dropLast ++
          [ScopeUnit.mk
            (ainsert s.vars name (VariableDecl.mk name kind none)) s.funs])
        m.function_map m.variable_id m.exports, ?_, rfl⟩
      simp only [Memory.add_variable, hL, List.concat_eq_append,
        List.getLast?_concat, List.dropLast_concat]
      rfl

/-- C2 witness: the amended non-global clause instantiated at a concrete
memory with one open scope. -/
theorem global_id_allocation_witness :
    ∃ m' : Memory,
      (Memory.new.push_scope).add_variable "z" Ty.Text false
        = some (none, m') ∧
      m'.variable_id = (Memory.new.push_scope).variable_id :=
  global_id_allocation.2 Memory.new.push_scope "z" Ty.Text (by decide)

@[simp] theorem alookup_ainsert_self {V : Type} (l : List (String × V))
    (k : String) (v : V) : alookup (ainsert l k v) k = some v := by
  simp [ainsert, alookup]

theorem exports_add_function_funs (e : Exports) (d : FunctionDecl) :
    (e.add_function d).funs =
      e.funs ++ (if d.is_public then [d] else []) := by
  cases h : d.is_public <;> simp [Exports.add_function, h]

/-- C3: `add_function_declaration` returns the newly allocated id exactly when
the name is absent from the innermost frame (`none` on a same-frame conflict),
and in either case the innermost frame afterwards maps the name to the newly
built declaration. -/
theorem add_function_declaration_conflict_behavior
    (m : Memory) (pm : ParserMetadata) (decl : FunctionDeclSyntax)
    (L : List ScopeUnit) (s : ScopeUnit)
    (hL : m.scopes = L ++ [s]) :
    ∃ (m' : Memory) (fd : FunctionDecl),
      m.add_function_declaration pm decl =
        some ((if (alookup s.funs decl.name).isNone
               then some fd.id else none), m') ∧
      m'.scopes.getLast? =
        some { s with funs := ainsert s.funs decl.name fd } ∧
      alookup (ainsert s.funs decl.name fd) decl.name = some fd ∧
      fd.name = decl.name ∧ fd.args = decl.args ∧
      fd.returns = decl.returns ∧ fd.is_public = decl.is_public := by
  refine ⟨Memory.mk
      (L ++ [ScopeUnit.mk s.vars (ainsert s.funs decl.name
        (FunctionDecl.mk decl.name decl.args decl.returns decl.body pm
          (!(decl.args.any (fun p => p.2 == Ty.Generic))) decl.is_public
          m.function_map.decl_count))])
      (FunctionMap.mk (m.function_map.decl_count + 1)) m.variable_id
      (m.exports.add_function (FunctionDecl.mk decl.name decl.args
        decl.returns decl.body pm
        (!(decl.args.any (fun p => p.2 == Ty.Generic))) decl.is_public
        m.function_map.decl_count)),
    FunctionDecl.mk decl.name decl.args decl.returns decl.body pm
      (!(decl.args.any (fun p => p.2 == Ty.Generic))) decl.is_public
      m.function_map.decl_count,
    ?_, ?_, alookup_ainsert_self _ _ _, rfl, rfl, rfl, rfl⟩
  · simp only [Memory.add_function_declaration, hL, List.getLast?_concat,
      List.dropLast_concat, FunctionMap.add_declaration]
  · simp only [List.getLast?_concat]

/-- C3 witness: a declaration on an empty innermost frame returns the fresh
id, instantiating the conflict-behavior theorem at a concrete memory. -/
theorem add_function_declaration_conflict_behavior_witness :
    ∃ (m' : Memory) (fd : FunctionDecl),
      ((Memory.new.push_scope).add_function_declaration ParserMetadata.mk
          (FunctionDeclSyntax.mk "f" [] Ty.Num [] true)) =
        some ((if (alookup (ScopeUnit.new).funs "f").isNone
               then some fd.id else none), m') ∧
      m'.scopes.getLast? =
        some { ScopeUnit.new with funs := ainsert (ScopeUnit.new).funs "f" fd } ∧
      alookup (ainsert (ScopeUnit.new).funs "f" fd) "f" = some fd ∧
      fd.name = "f" ∧ fd.args = [] ∧
      fd.returns = Ty.Num ∧ fd.is_public = true :=
  add_function_declaration_conflict_behavior Memory.new.push_scope
    ParserMetadata.mk (FunctionDeclSyntax.mk "f" [] Ty.Num [] true)
    [] ScopeUnit.new rfl

/-- C9: every `add_function_declaration` call allocates a fresh id, including
conflicting ones: on a same-frame conflict the call returns `none`, the
function-map counter still advances, and the declaration now stored under the
name carries the fresh id, distinct from the overwritten declaration's id. -/
theorem add_function_declaration_fresh_id_on_conflict
    (m : Memory) (pm : ParserMetadata) (decl : FunctionDeclSyntax)
    (L : List ScopeUnit) (s : ScopeUnit) (d₀ : FunctionDecl)
    (hL : m.scopes = L ++ [s])
    (h₀ : alookup s.funs decl.name = some d₀)
    (hinv : d₀.id < m.function_map.decl_count) :
    ∃ (m' : Memory) (fd : FunctionDecl),
      m.add_function_declaration pm decl = some (none, m') ∧
      m'.function_map.decl_count = m.function_map.decl_count + 1 ∧
      m'.get_function decl.name = some fd ∧
      fd.id = m.function_map.decl_count ∧
      fd.id ≠ d₀.id := by
  refine ⟨Memory.mk
      (L ++ [ScopeUnit.mk s.vars (ainsert s.funs decl.name
        (FunctionDecl.mk decl.name decl.args decl.returns decl.body pm
          (!(decl.args.any (fun p => p.2 == Ty.Generic))) decl.is_public
          m.function_map.decl_count))])
      (FunctionMap.mk (m.function_map.decl_count + 1)) m.variable_id
      (m.exports.add_function (FunctionDecl.mk decl.name decl.args
        decl.returns decl.body pm
        (!(decl.args.any (fun p => p.2 == Ty.Generic))) decl.is_public
        m.function_map.decl_count)),
    FunctionDecl.mk decl.name decl.args decl.returns decl.body pm
      (!(decl.args.any (fun p => p.2 == Ty.Generic))) decl.is_public
      m.function_map.decl_count,
    ?_, rfl, ?_, rfl, (Nat.ne_of_lt hinv).symm⟩
  · simp only [Memory.add_function_declaration, hL, List.getLast?_concat,
      List.dropLast_concat, FunctionMap.add_declaration, h₀,
      Option.isNone_some, Bool.false_eq_true, if_false]
  · simp [Memory.get_function, findFunIn]

/-- A concrete non-public function declaration named `f` with id 0. -/
def fdF : FunctionDecl :=
  FunctionDecl.mk "f" [] Ty.Num [] ParserMetadata.mk true false 0

/-- A concrete public function declaration named `g` with id 7. -/
def fdG : FunctionDecl :=
  FunctionDecl.mk "g" [] Ty.Num [] ParserMetadata.mk true true 7

/-- A concrete one-scope memory whose innermost frame already declares the
function `f`, with one function id already allocated. -/
def memF : Memory :=
  Memory.mk [ScopeUnit.mk [] [("f", fdF)]] (FunctionMap.mk 1) 0 (Exports.mk [])

/-- C9 witness: redeclaring `f` in the same frame returns `none` yet advances
the id counter and stores a declaration with the fresh id 1 ≠ 0. -/
theorem add_function_declaration_fresh_id_on_conflict_witness :
    ∃ (m' : Memory) (fd : FunctionDecl),
      memF.add_function_declaration ParserMetadata.mk
          (FunctionDeclSyntax.mk "f" [] Ty.Num [] false) = some (none, m') ∧
      m'.function_map.decl_count = memF.function_map.decl_count + 1 ∧
      m'.get_function "f" = some fd ∧
      fd.id = memF.function_map.decl_count ∧
      fd.id ≠ fdF.id :=
  add_function_declaration_fresh_id_on_conflict memF ParserMetadata.mk
    (FunctionDeclSyntax.mk "f" [] Ty.Num [] false)
    [] (ScopeUnit.mk [] [("f", fdF)]) fdF rfl (by decide) (by decide)

/-- The concrete memory produced by declaring the global variable `x` in the
single scope of a fresh memory. -/
def memXg : Memory :=
  Memory.mk
    [ScopeUnit.mk [("x", VariableDecl.mk "x" Ty.Num (some 0))] []]
    (FunctionMap.mk 0) 1 (Exports.mk [])

/-- C5 counterexample: with `x` already declared in the innermost (and only)
scope, a second global `add_variable "x"` returns `some 1` — a fresh id, not
the absent result the claim requires for a same-scope redeclaration. -/
theorem add_variable_conflict_not_signaled :
    (Memory.new.push_scope).add_variable "x" Ty.Num true
      = some (some 0, memXg) ∧
    (memXg.scopes.getLast?).map (fun s => (alookup s.vars "x").isSome)
      = some true ∧
    (memXg.add_variable "x" Ty.Num true).map Prod.fst = some (some 1) := by
  decide

/-- C5 (amended): same-scope redeclaration is signaled by the
function-declaring entry point (`add_function_declaration` returns `none`
exactly then; a name absent from the innermost frame — even one present in an
outer scope — yields a fresh id), while `add_variable` never signals a
conflict: its result depends only on the `is_global` flag. -/
theorem redeclaration_signaling
    (m : Memory) (pm : ParserMetadata) (decl : FunctionDeclSyntax)
    (L : List ScopeUnit) (s : ScopeUnit)
    (hL : m.scopes = L ++ [s]) :
    ((alookup s.funs decl.name).isSome →
      (m.add_function_declaration pm decl).map Prod.fst = some none) ∧
    (alookup s.funs decl.name = none →
      (m.add_function_declaration pm decl).map Prod.fst
        = some (some m.function_map.decl_count)) ∧
    (∀ (name : String) (kind : Ty),
      (m.add_variable name kind true).map Prod.fst
        = some (some m.variable_id) ∧
      (m.add_variable name kind false).map Prod.fst = some none) := by
  refine ⟨?_, ?_, ?_⟩
  · intro h
    obtain ⟨d₀, hd₀⟩ := Option.isSome_iff_exists.mp h
    simp [Memory.add_function_declaration, hL, List.getLast?_concat,
      List.dropLast_concat, FunctionMap.add_declaration, hd₀]
  · intro h
    simp [Memory.add_function_declaration, hL, List.getLast?_concat,
      List.dropLast_concat, FunctionMap.add_declaration, h]
  · intro name kind
    constructor <;>
      simp [Memory.add_variable, hL, List.getLast?_concat,
        List.dropLast_concat]

/-- C5 witness: the amended conflict clause instantiated at a concrete memory
whose innermost frame already declares `f`. -/
theorem redeclaration_signaling_witness :
    (memF.add_function_declaration ParserMetadata.mk
      (FunctionDeclSyntax.mk "f" [] Ty.Num [] false)).map Prod.fst
      = some none :=
  (redeclaration_signaling memF ParserMetadata.mk
      (FunctionDeclSyntax.mk "f" [] Ty.Num [] false)
      [] (ScopeUnit.mk [] [("f", fdF)]) rfl).1 (by decide)

/-- C6: `add_existing_function_declaration` returns whether the name was
previously absent from the innermost frame, so a second call with the same
name in the same open scope returns `false`. -/
theorem add_existing_function_declaration_round_trip
    (m : Memory) (d d' : FunctionDecl) (L : List ScopeUnit) (s : ScopeUnit)
    (hL : m.scopes = L ++ [s]) (hname : d'.name = d.name) :
    ∃ (m₁ m₂ : Memory),
      m.add_existing_function_declaration d
        = some ((alookup s.funs d.name).isNone, m₁) ∧
      m₁.add_existing_function_declaration d' = some (false, m₂) := by
  refine ⟨Memory.mk (L ++ [ScopeUnit.mk s.vars (ainsert s.funs d.name d)])
      m.function_map m.variable_id (m.exports.add_function d),
    Memory.mk (L ++ [ScopeUnit.mk s.vars
        (ainsert (ainsert s.funs d.name d) d'.name d')])
      m.function_map m.variable_id
      ((m.exports.add_function d).add_function d'), ?_, ?_⟩
  · simp only [Memory.add_existing_function_declaration, hL,
      List.getLast?_concat, List.dropLast_concat]
  · simp only [Memory.add_existing_function_declaration,
      List.getLast?_concat, List.dropLast_concat, hname,
      alookup_ainsert_self, Option.isNone_some]

/-- C6 witness: two registrations of the same name in a fresh pushed scope
return `true` then `false`. -/
theorem add_existing_function_declaration_round_trip_witness :
    ∃ (m₁ m₂ : Memory),
      (Memory.new.push_scope).add_existing_function_declaration fdG
        = some ((alookup (ScopeUnit.new).funs "g").isNone, m₁) ∧
      m₁.add_existing_function_declaration fdG = some (false, m₂) :=
  add_existing_function_declaration_round_trip Memory.new.push_scope
    fdG fdG [] ScopeUnit.new rfl rfl

/-- C7: only public functions reach the Exports registry, exactly once per
declaring call: both declaring entry points append the declared function to
the registry exactly when it is public, and the other Memory operations
(`add_variable`, `push_scope`, `pop_scope`) never touch the registry. -/
theorem exports_receive_only_public
    (m : Memory) (pm : ParserMetadata) (ds : FunctionDeclSyntax)
    (d : FunctionDecl) (L : List ScopeUnit) (s : ScopeUnit)
    (hL : m.scopes = L ++ [s]) :
    (∃ (r : Option Nat) (m' : Memory) (fd : FunctionDecl),
      m.add_function_declaration pm ds = some (r, m') ∧
      fd.name = ds.name ∧ fd.is_public = ds.is_public ∧
      m'.exports.funs
        = m.exports.funs ++ (if ds.is_public then [fd] else [])) ∧
    (∃ (b : Bool) (m'' : Memory),
      m.add_existing_function_declaration d = some (b, m'') ∧
      m''.exports.funs
        = m.exports.funs ++ (if d.is_public then [d] else [])) ∧
    (∀ (name : String) (kind : Ty) (g : Bool) (r : Option Nat) (m₃ : Memory),
      m.add_variable name kind g = some (r, m₃) → m₃.exports = m.exports) ∧
    (m.push_scope).exports = m.exports ∧
    (∀ (u : ScopeUnit) (m₄ : Memory),
      m.pop_scope = some (u, m₄) → m₄.exports = m.exports) := by
  refine ⟨?_, ?_, ?_, rfl, ?_⟩
  · refine ⟨(if (alookup s.funs ds.name).isNone
        then some m.function_map.decl_count else none),
      Memory.mk
        (L ++ [ScopeUnit.mk s.vars (ainsert s.funs ds.name
          (FunctionDecl.mk ds.name ds.args ds.returns ds.body pm
            (!(ds.args.any (fun p => p.2 == Ty.Generic))) ds.is_public
            m.function_map.decl_count))])
        (FunctionMap.mk (m.function_map.decl_count + 1)) m.variable_id
        (m.exports.add_function (FunctionDecl.mk ds.name ds.args ds.returns
          ds.body pm (!(ds.args.any (fun p => p.2 == Ty.Generic)))
          ds.is_public m.function_map.decl_count)),
      FunctionDecl.mk ds.name ds.args ds.returns ds.body pm
        (!(ds.args.any (fun p => p.2 == Ty.Generic))) ds.is_public
        m.function_map.decl_count,
      ?_, rfl, rfl, exports_add_function_funs _ _⟩
    simp only [Memory.add_function_declaration, hL, List.getLast?_concat,
      List.dropLast_concat, FunctionMap.add_declaration]
  · refine ⟨(alookup s.funs d.name).isNone,
      Memory.mk (L ++ [ScopeUnit.mk s.vars (ainsert s.funs d.name d)])
        m.function_map m.variable_id (m.exports.add_function d),
      ?_, exports_add_function_funs _ _⟩
    simp only [Memory.add_existing_function_declaration, hL,
      List.getLast?_concat, List.dropLast_concat]
  · intro name kind g r m₃ h
    simp only [Memory.add_variable, hL, List.getLast?_concat,
      Option.some.injEq, Prod.mk.injEq] at h
    obtain ⟨-, h2⟩ := h
    rw [← h2]
  · intro u m₄ h
    simp only [Memory.pop_scope, hL, List.getLast?_concat,
      Option.some.injEq, Prod.mk.injEq] at h
    obtain ⟨-, h2⟩ := h
    rw [← h2]

/-- C7 witness: registering the public declaration `g` at a concrete memory
appends it to the exports exactly once. -/
theorem exports_receive_only_public_witness :
    ∃ (b : Bool) (m'' : Memory),
      memF.add_existing_function_declaration fdG = some (b, m'') ∧
      m''.exports.funs
        = memF.exports.funs ++ (if fdG.is_public then [fdG] else []) :=
  (exports_receive_only_public memF ParserMetadata.mk
    (FunctionDeclSyntax.mk "g" [] Ty.Num [] true) fdG
    [] (ScopeUnit.mk [] [("f", fdF)]) rfl).2.1

theorem alookup_eq_some_mem {V : Type} {l : List (String × V)} {k : String}
    {v : V} (h : alookup l k = some v) : (k, v) ∈ l := by
  induction l with
  | nil => simp [alookup] at h
  | cons p rest ih =>
    obtain ⟨k₀, v₀⟩ := p
    by_cases hk : k₀ = k
    · subst hk
      simp [alookup] at h
      simp [h]
    · simp only [alookup, if_neg hk] at h
      exact List.mem_cons_of_mem _ (ih h)

/-- C10: redeclaring a global name in the same scope never signals a conflict:
`add_variable` with `is_global = true` always allocates and returns the next
fresh `global_id`, replaces the stored declaration with one carrying that id,
and — since every previously stored global id lies below the counter — the new
id is strictly larger than the overwritten declaration's. -/
theorem add_variable_global_redeclaration
    (m : Memory) (name : String) (kind : Ty) (d₀ : VariableDecl)
    (L : List ScopeUnit) (s : ScopeUnit)
    (hL : m.scopes = L ++ [s])
    (h₀ : alookup s.vars name = some d₀)
    (hinv : ∀ p ∈ s.vars, ∀ g, (p.2 : VariableDecl).global_id = some g →
      g < m.variable_id) :
    ∃ m' : Memory,
      m.add_variable name kind true = some (some m.variable_id, m') ∧
      m'.variable_id = m.variable_id + 1 ∧
      m'.get_variable name
        = some (VariableDecl.mk name kind (some m.variable_id)) ∧
      (∀ g, d₀.global_id = some g → g < m.variable_id) := by
  refine ⟨Memory.mk
      (L ++ [ScopeUnit.mk (ainsert s.vars name
        (VariableDecl.mk name kind (some m.variable_id))) s.funs])
      m.function_map (m.variable_id + 1) m.exports,
    ?_, rfl, ?_, fun g hg => hinv (name, d₀) (alookup_eq_some_mem h₀) g hg⟩
  · simp only [Memory.add_variable, hL, List.getLast?_concat,
      List.dropLast_concat]
    rfl
  · simp [Memory.get_variable, findVarIn]

/-- C10 witness: with `x : Num` holding global id 0 and the counter at 1,
a global redeclaration of `x` returns the fresh id 1 > 0. -/
theorem add_variable_global_redeclaration_witness :
    ∃ m' : Memory,
      memXg.add_variable "x" Ty.Text true = some (some memXg.variable_id, m') ∧
      m'.variable_id = memXg.variable_id + 1 ∧
      m'.get_variable "x"
        = some (VariableDecl.mk "x" Ty.Text (some memXg.variable_id)) ∧
      (∀ g, (VariableDecl.mk "x" Ty.Num (some 0)).global_id = some g →
        g < memXg.variable_id) :=
  add_variable_global_redeclaration memXg "x" Ty.Text
    (VariableDecl.mk "x" Ty.Num (some 0))
    [] (ScopeUnit.mk [("x", VariableDecl.mk "x" Ty.Num (some 0))] [])
    rfl (by decide) (by decide)

/-- Modelled from the spec: an operand sub-expression as seen by a binary
operator node after its recursive sub-parse. The full `Expr` grammar is an
external collaborator; only the node's "get type" capability is visible to
`Div`, so an operand is represented by its reported type. -/
structure Expr where
  kind : Ty
deriving DecidableEq, Repr

/-- The "get type" capability of an operand: reports its single concrete
type. -/
def Expr.get_type (e : Expr) : Ty := e.kind

/-- Modelled from the spec: a parse-time diagnostic — a type mismatch carries
the offending token's position and a fixed explanatory message. -/
inductive ParseError where
  | typeMismatch (pos : Nat × Nat) (message : String)
deriving DecidableEq, Repr

/-- Modelled from the spec: `expression_arms_of_type` (defined in the binop
module, not under src/) asserts that both operands' reported types equal the
expected type; a mismatch raises a type error tagged with the recorded token
position and the given message, aborting the enclosing parse. -/
def expression_arms_of_type (left right : Expr) (kind : Ty) (tok : Token)
    (message : String) : Except ParseError Unit :=
  if left.get_type = kind ∧ right.get_type = kind then Except.ok ()
  else Except.error (ParseError.typeMismatch tok.pos message)

/-- Struct `Div` from `div.rs`: a division node holds its two operands. -/
structure Div where
  left : Expr
  right : Expr
deriving DecidableEq, Repr

/-- Impl `Typed for Div` from `div.rs`: a division node always reports
`Num`. -/
def Div.get_type (_ : Div) : Ty := Ty.Num

/-- Function `Div::parse` from `div.rs`, with the external combinators
abstracted: `left` and `right` are the operands produced by the recursive
sub-parses, and `tok` is the `/` token recorded by `get_current_token` before
it is consumed. The arm-type check then either succeeds or aborts the parse
with the fixed message. -/
def Div.parse (left : Expr) (right : Expr) (tok : Token) :
    Except ParseError Div := do
  let error := "Divide operation can only divide numbers"
  expression_arms_of_type left right Ty.Num tok error
  pure (Div.mk left right)

/-- C4: parsing a division whose operands are not both numeric fails with a
`TypeMismatch` carrying the recorded position of the `/` token and the
message "Divide operation can only divide numbers"; `Div.parse` does not
succeed on such input. -/
theorem div_parse_type_mismatch (left right : Expr) (tok : Token)
    (h : ¬(left.get_type = Ty.Num ∧ right.get_type = Ty.Num)) :
    Div.parse left right tok
      = Except.error (ParseError.typeMismatch tok.pos
          "Divide operation can only divide numbers") := by
  simp [Div.parse, expression_arms_of_type, h]

/-- C4 witness: parsing `5 / "a"` — a `Num` left operand and a `Text` right
operand — fails with the `TypeMismatch` at the `/` token's position. -/
theorem div_parse_type_mismatch_witness :
    Div.parse (Expr.mk Ty.Num) (Expr.mk Ty.Text) (Token.mk "/" (1, 3))
      = Except.error (ParseError.typeMismatch (1, 3)
          "Divide operation can only divide numbers") :=
  div_parse_type_mismatch (Expr.mk Ty.Num) (Expr.mk Ty.Text)
    (Token.mk "/" (1, 3)) (by decide)

/-- C8: a `Div` node reports type `Num`, independent of the types reported by
its operand sub-expressions. -/
theorem div_get_type_num (l r : Expr) : (Div.mk l r).get_type = Ty.Num := rfl

end Amber
